import Mathlib

/-!
Verification of the 2025 Safe Harbor estimated-tax calculation module
(`src/client/src/lib/pdfExport.ts`).  Currency amounts are embedded as
exact rationals (`ℚ`); every function below is a direct transcription of
the corresponding TypeScript function.
-/

/-- Filing status enum: `'single' | 'married'`. -/
inductive FilingStatus where
  | single
  | married
deriving DecidableEq, Repr

/-- The 2025 constants record `TAX_CONSTANTS_2025`: standard deduction per
filing status. -/
def TAX_CONSTANTS_2025.standardDeduction : FilingStatus → ℚ
  | .single => 15750
  | .married => 31500

/-- `TAX_CONSTANTS_2025.socialSecurityWageBase`. -/
def TAX_CONSTANTS_2025.socialSecurityWageBase : ℚ := 176100

/-- `TAX_CONSTANTS_2025.socialSecurityRate` (12.4%). -/
def TAX_CONSTANTS_2025.socialSecurityRate : ℚ := 0.124

/-- `TAX_CONSTANTS_2025.medicareRate` (2.9%). -/
def TAX_CONSTANTS_2025.medicareRate : ℚ := 0.029

/-- `TAX_CONSTANTS_2025.additionalMedicareRate` (0.9%). -/
def TAX_CONSTANTS_2025.additionalMedicareRate : ℚ := 0.009

/-- `TAX_CONSTANTS_2025.additionalMedicareThreshold` per filing status. -/
def TAX_CONSTANTS_2025.additionalMedicareThreshold : FilingStatus → ℚ
  | .single => 200000
  | .married => 250000

/-- `TAX_CONSTANTS_2025.seTaxDeductionRate` (half of SE tax deductible). -/
def TAX_CONSTANTS_2025.seTaxDeductionRate : ℚ := 0.5

/-- `TAX_CONSTANTS_2025.safeHarborHighIncomeThreshold`. -/
def TAX_CONSTANTS_2025.safeHarborHighIncomeThreshold : ℚ := 150000

/-- `TAX_CONSTANTS_2025.safeHarborHighIncomeMultiplier` (110%). -/
def TAX_CONSTANTS_2025.safeHarborHighIncomeMultiplier : ℚ := 1.1

/-- `TAX_CONSTANTS_2025.safeHarborStandardMultiplier` (100%). -/
def TAX_CONSTANTS_2025.safeHarborStandardMultiplier : ℚ := 1.0

/-- `TAX_CONSTANTS_2025.currentYearAvoidanceMultiplier` (90%). -/
def TAX_CONSTANTS_2025.currentYearAvoidanceMultiplier : ℚ := 0.9

/-- One row of `TAX_BRACKETS_2025`: `{ min, max, rate }`.  The source writes
`max: Infinity` for the last bracket; that unbounded upper end is embedded
as `none`. -/
structure TaxBracket where
  min : ℚ
  max : Option ℚ
  rate : ℚ
deriving DecidableEq, Repr

/-- The bracket table `TAX_BRACKETS_2025` per filing status. -/
def TAX_BRACKETS_2025 : FilingStatus → List TaxBracket
  | .single =>
      [ ⟨0, some 11925, 0.10⟩,
        ⟨11926, some 48475, 0.12⟩,
        ⟨48476, some 103350, 0.22⟩,
        ⟨103351, some 197300, 0.24⟩,
        ⟨197301, some 250525, 0.32⟩,
        ⟨250526, some 626350, 0.35⟩,
        ⟨626351, none, 0.37⟩ ]
  | .married =>
      [ ⟨0, some 23850, 0.10⟩,
        ⟨23851, some 96950, 0.12⟩,
        ⟨96951, some 206700, 0.22⟩,
        ⟨206701, some 394600, 0.24⟩,
        ⟨394601, some 501050, 0.32⟩,
        ⟨501051, some 751600, 0.35⟩,
        ⟨751601, none, 0.37⟩ ]

/-- Input record `TaxInputs`. -/
structure TaxInputs where
  filingStatus : FilingStatus
  priorYearTax : ℚ
  priorYearAGI : ℚ
  currentYearProfit : ℚ
deriving DecidableEq, Repr

/-- Result record `SelfEmploymentTaxBreakdown`. -/
structure SelfEmploymentTaxBreakdown where
  socialSecurityTax : ℚ
  medicareTax : ℚ
  additionalMedicareTax : ℚ
  totalSETax : ℚ
  seTaxDeduction : ℚ
deriving DecidableEq, Repr

/-- One element of `bracketDetails`: `{ rate, taxableAtRate, taxAtRate }`. -/
structure BracketDetail where
  rate : ℚ
  taxableAtRate : ℚ
  taxAtRate : ℚ
deriving DecidableEq, Repr

/-- Result record `IncomeTaxBreakdown`. -/
structure IncomeTaxBreakdown where
  taxableIncome : ℚ
  federalIncomeTax : ℚ
  bracketDetails : List BracketDetail
deriving DecidableEq, Repr

/-- Result record `TaxCalculationResult`. -/
structure TaxCalculationResult where
  selfEmploymentTax : SelfEmploymentTaxBreakdown
  incomeTax : IncomeTaxBreakdown
  currentYearTotalTax : ℚ
  currentYearAvoidanceMinimum : ℚ
  safeHarborMultiplier : ℚ
  safeHarborMinimum : ℚ
  requiredAnnualPayment : ℚ
  quarterlyPayment : ℚ
  isCurrentYearLower : Bool
  savings : ℚ
deriving DecidableEq, Repr

/-- `calculateSelfEmploymentTax(netProfit, filingStatus)`: SE tax on 92.35%
of net profit, Social Security capped at the wage base, Medicare uncapped,
additional Medicare on the excess over the threshold. -/
def calculateSelfEmploymentTax (netProfit : ℚ) (filingStatus : FilingStatus) :
    SelfEmploymentTaxBreakdown :=
  let seTaxableEarnings := netProfit * 0.9235
  let socialSecurityTaxable :=
    min seTaxableEarnings TAX_CONSTANTS_2025.socialSecurityWageBase
  let socialSecurityTax := socialSecurityTaxable * TAX_CONSTANTS_2025.socialSecurityRate
  let medicareTax := seTaxableEarnings * TAX_CONSTANTS_2025.medicareRate
  let additionalMedicareThreshold :=
    TAX_CONSTANTS_2025.additionalMedicareThreshold filingStatus
  let additionalMedicareTaxable := max 0 (seTaxableEarnings - additionalMedicareThreshold)
  let additionalMedicareTax :=
    additionalMedicareTaxable * TAX_CONSTANTS_2025.additionalMedicareRate
  let totalSETax := socialSecurityTax + medicareTax + additionalMedicareTax
  let seTaxDeduction := totalSETax * TAX_CONSTANTS_2025.seTaxDeductionRate
  { socialSecurityTax := socialSecurityTax
    medicareTax := medicareTax
    additionalMedicareTax := additionalMedicareTax
    totalSETax := totalSETax
    seTaxDeduction := seTaxDeduction }

/-- Amount taxed in one bracket: `Math.min(remainingIncome, bracketSize)`
where `bracketSize = bracket.max - bracket.min + 1`; with `max = Infinity`
(the last bracket) the `min` resolves to `remainingIncome` itself. -/
def taxableAt (b : TaxBracket) (remainingIncome : ℚ) : ℚ :=
  match b.max with
  | none => remainingIncome
  | some m => min remainingIncome (m - b.min + 1)

/-- The `for (const bracket of brackets)` loop of `calculateIncomeTax`:
walks the bracket table accumulating `totalTax` and pushing a detail row
whenever `taxableAtRate > 0`, breaking once `remainingIncome <= 0`. -/
def bracketWalk : List TaxBracket → ℚ → ℚ × List BracketDetail
  | [], _ => (0, [])
  | b :: rest, remainingIncome =>
    if remainingIncome ≤ 0 then (0, [])
    else
      let taxableAtRate := taxableAt b remainingIncome
      let taxAtRate := taxableAtRate * b.rate
      let tail := bracketWalk rest (remainingIncome - taxableAtRate)
      if 0 < taxableAtRate then
        (taxAtRate + tail.1, ⟨b.rate, taxableAtRate, taxAtRate⟩ :: tail.2)
      else
        (taxAtRate + tail.1, tail.2)

/-- `calculateIncomeTax(netProfit, seTaxDeduction, filingStatus)`:
AGI = net profit − SE-tax deduction, taxable income = `Math.max(0, agi −
standardDeduction)`, then the progressive bracket walk. -/
def calculateIncomeTax (netProfit seTaxDeduction : ℚ)
    (filingStatus : FilingStatus) : IncomeTaxBreakdown :=
  let standardDeduction := TAX_CONSTANTS_2025.standardDeduction filingStatus
  let brackets := TAX_BRACKETS_2025 filingStatus
  let agi := netProfit - seTaxDeduction
  let taxableIncome := max 0 (agi - standardDeduction)
  let walked := bracketWalk brackets taxableIncome
  { taxableIncome := taxableIncome
    federalIncomeTax := walked.1
    bracketDetails := walked.2 }

/-- Return type of `calculateSafeHarbor`. -/
structure SafeHarborResult where
  safeHarborMinimum : ℚ
  multiplier : ℚ
deriving DecidableEq, Repr

/-- `calculateSafeHarbor(priorYearTax, priorYearAGI)`: the 110% multiplier
applies exactly when prior-year AGI strictly exceeds the 150000 threshold. -/
def calculateSafeHarbor (priorYearTax priorYearAGI : ℚ) : SafeHarborResult :=
  let multiplier :=
    if TAX_CONSTANTS_2025.safeHarborHighIncomeThreshold < priorYearAGI then
      TAX_CONSTANTS_2025.safeHarborHighIncomeMultiplier
    else
      TAX_CONSTANTS_2025.safeHarborStandardMultiplier
  { safeHarborMinimum := priorYearTax * multiplier
    multiplier := multiplier }

/-- `calculateTaxes(inputs)`: the orchestrator composing SE tax, income tax
and Safe Harbor into the required annual/quarterly payment and the
recommendation flag. -/
def calculateTaxes (inputs : TaxInputs) : TaxCalculationResult :=
  let selfEmploymentTax :=
    calculateSelfEmploymentTax inputs.currentYearProfit inputs.filingStatus
  let incomeTax :=
    calculateIncomeTax inputs.currentYearProfit selfEmploymentTax.seTaxDeduction
      inputs.filingStatus
  let currentYearTotalTax :=
    selfEmploymentTax.totalSETax + incomeTax.federalIncomeTax
  let currentYearAvoidanceMinimum :=
    currentYearTotalTax * TAX_CONSTANTS_2025.currentYearAvoidanceMultiplier
  let safeHarbor := calculateSafeHarbor inputs.priorYearTax inputs.priorYearAGI
  let requiredAnnualPayment :=
    min safeHarbor.safeHarborMinimum currentYearAvoidanceMinimum
  let quarterlyPayment := requiredAnnualPayment / 4
  let isCurrentYearLower :=
    decide (currentYearAvoidanceMinimum < safeHarbor.safeHarborMinimum)
  let savings := |safeHarbor.safeHarborMinimum - currentYearAvoidanceMinimum|
  { selfEmploymentTax := selfEmploymentTax
    incomeTax := incomeTax
    currentYearTotalTax := currentYearTotalTax
    currentYearAvoidanceMinimum := currentYearAvoidanceMinimum
    safeHarborMultiplier := safeHarbor.multiplier
    safeHarborMinimum := safeHarbor.safeHarborMinimum
    requiredAnnualPayment := requiredAnnualPayment
    quarterlyPayment := quarterlyPayment
    isCurrentYearLower := isCurrentYearLower
    savings := savings }

/-- Numeric value of a digit string, most significant first. -/
def digitsVal (cs : List Char) : ℕ :=
  cs.foldl (fun acc c => acc * 10 + (c.toNat - Char.toNat '0')) 0

/-- Model of the JavaScript builtin `parseFloat`, restricted to the inputs
`parseCurrency` can feed it (strings over the alphabet `[0-9.-]` after the
regex strip): an optional leading minus sign, then the longest prefix of
the form `digits`, `digits.digits` or `.digits`; anything after that prefix
is ignored; when no digit is found the result is NaN, embedded as `none`. -/
def parseFloatModel (cs : List Char) : Option ℚ :=
  let signed := cs.head? = some '-'
  let cs1 := if signed then cs.tail else cs
  let intDigits := cs1.takeWhile Char.isDigit
  let afterInt := cs1.dropWhile Char.isDigit
  let build : ℚ → Option ℚ := fun mag => some (if signed then -mag else mag)
  match afterInt with
  | '.' :: rest =>
    let fracDigits := rest.takeWhile Char.isDigit
    if intDigits.isEmpty ∧ fracDigits.isEmpty then none
    else
      build ((digitsVal intDigits : ℚ) +
        (digitsVal fracDigits : ℚ) / (10 : ℚ) ^ fracDigits.length)
  | _ =>
    if intDigits.isEmpty then none else build (digitsVal intDigits : ℚ)

/-- The character class kept by `value.replace(/[^0-9.-]/g, '')`. -/
def currencyChar (c : Char) : Bool :=
  c.isDigit || c = '.' || c = '-'

/-- The cleaned character list `value.replace(/[^0-9.-]/g, '')`. -/
def cleanCurrency (value : String) : List Char :=
  value.data.filter currencyChar

/-- `parseCurrency(value)`: strip everything but digits, decimal point and
minus, `parseFloat` the remainder, and return 0 when that is NaN. -/
def parseCurrency (value : String) : ℚ :=
  match parseFloatModel (cleanCurrency value) with
  | none => 0
  | some parsed => parsed

/-- A bracket has positive capacity: its size `max - min + 1` is positive
(vacuously true for the unbounded last bracket).  Both 2025 tables satisfy
this. -/
def sizePos (b : TaxBracket) : Prop :=
  match b.max with
  | none => True
  | some m => 0 < m - b.min + 1

/-- Claim C1: for every input record, `calculateTaxes` satisfies the
orchestrator identities: total tax is the sum of SE tax and income tax, the
avoidance minimum is 90% of it, the required annual payment is the minimum
of the two candidate minimums, the quarterly payment is exactly a quarter of
it (so four quarters reconstruct it exactly), `isCurrentYearLower` holds
exactly when the avoidance minimum is strictly below the Safe Harbor
minimum (ties favor Safe Harbor), and `savings` is the absolute difference
of the two minimums. -/
theorem claim_C1_orchestrator (inputs : TaxInputs) :
    (calculateTaxes inputs).currentYearTotalTax
        = (calculateTaxes inputs).selfEmploymentTax.totalSETax
          + (calculateTaxes inputs).incomeTax.federalIncomeTax ∧
    (calculateTaxes inputs).currentYearAvoidanceMinimum
        = (calculateTaxes inputs).currentYearTotalTax * 0.9 ∧
    (calculateTaxes inputs).requiredAnnualPayment
        = min (calculateTaxes inputs).safeHarborMinimum
            (calculateTaxes inputs).currentYearAvoidanceMinimum ∧
    (calculateTaxes inputs).quarterlyPayment
        = (calculateTaxes inputs).requiredAnnualPayment / 4 ∧
    (calculateTaxes inputs).quarterlyPayment * 4
        = (calculateTaxes inputs).requiredAnnualPayment ∧
    ((calculateTaxes inputs).isCurrentYearLower = true
        ↔ (calculateTaxes inputs).currentYearAvoidanceMinimum
            < (calculateTaxes inputs).safeHarborMinimum) ∧
    (calculateTaxes inputs).savings
        = |(calculateTaxes inputs).safeHarborMinimum
            - (calculateTaxes inputs).currentYearAvoidanceMinimum| := by
  refine ⟨rfl, rfl, rfl, rfl, ?_, ?_, rfl⟩
  · exact div_mul_cancel₀ _ (by norm_num)
  · exact decide_eq_true_iff

/-- Claim C2: `calculateSafeHarbor` applies the 1.1 multiplier exactly when
prior-year AGI strictly exceeds 150000 and the 1.0 multiplier otherwise; in
particular AGI = 150000 gives 1.0 and AGI = 150001 gives 1.1, and the Safe
Harbor minimum is the prior-year tax times the chosen multiplier. -/
theorem claim_C2_safe_harbor (priorYearTax priorYearAGI : ℚ) :
    (150000 < priorYearAGI →
        (calculateSafeHarbor priorYearTax priorYearAGI).multiplier = 1.1) ∧
    (priorYearAGI ≤ 150000 →
        (calculateSafeHarbor priorYearTax priorYearAGI).multiplier = 1.0) ∧
    (calculateSafeHarbor priorYearTax priorYearAGI).safeHarborMinimum
        = priorYearTax * (calculateSafeHarbor priorYearTax priorYearAGI).multiplier ∧
    (calculateSafeHarbor priorYearTax 150000).multiplier = 1.0 ∧
    (calculateSafeHarbor priorYearTax 150001).multiplier = 1.1 := by
  unfold calculateSafeHarbor TAX_CONSTANTS_2025.safeHarborHighIncomeThreshold
    TAX_CONSTANTS_2025.safeHarborHighIncomeMultiplier
    TAX_CONSTANTS_2025.safeHarborStandardMultiplier
  refine ⟨fun h => ?_, fun h => ?_, rfl, ?_, ?_⟩
  · simp [if_pos h]
  · simp [if_neg (not_lt.mpr h)]
  · norm_num
  · norm_num

/-- Witness for claim C2 at AGI 140000 (below the threshold). -/
theorem claim_C2_safe_harbor_witness :
    (calculateSafeHarbor 25000 140000).multiplier = 1.0 :=
  (claim_C2_safe_harbor 25000 140000).2.1 (by norm_num)

/-- Claim C4: for every filing status and non-negative net profit,
`calculateSelfEmploymentTax` computes SE-taxable earnings as
`netProfit × 0.9235`, the additional Medicare tax as
`max(0, earnings − threshold) × 0.009`, all components non-negative, the
total exactly the sum of the three components, and the deduction exactly
half the total. -/
theorem claim_C4_se_tax (filingStatus : FilingStatus) (netProfit : ℚ)
    (h : 0 ≤ netProfit) :
    (calculateSelfEmploymentTax netProfit filingStatus).socialSecurityTax
        = min (netProfit * 0.9235) 176100 * 0.124 ∧
    (calculateSelfEmploymentTax netProfit filingStatus).medicareTax
        = netProfit * 0.9235 * 0.029 ∧
    (calculateSelfEmploymentTax netProfit filingStatus).additionalMedicareTax
        = max 0 (netProfit * 0.9235
            - TAX_CONSTANTS_2025.additionalMedicareThreshold filingStatus) * 0.009 ∧
    (calculateSelfEmploymentTax netProfit filingStatus).totalSETax
        = (calculateSelfEmploymentTax netProfit filingStatus).socialSecurityTax
          + (calculateSelfEmploymentTax netProfit filingStatus).medicareTax
          + (calculateSelfEmploymentTax netProfit filingStatus).additionalMedicareTax ∧
    0 ≤ (calculateSelfEmploymentTax netProfit filingStatus).socialSecurityTax ∧
    0 ≤ (calculateSelfEmploymentTax netProfit filingStatus).medicareTax ∧
    0 ≤ (calculateSelfEmploymentTax netProfit filingStatus).additionalMedicareTax ∧
    (calculateSelfEmploymentTax netProfit filingStatus).seTaxDeduction
        = (calculateSelfEmploymentTax netProfit filingStatus).totalSETax * 0.5 := by
  refine ⟨rfl, rfl, rfl, rfl, ?_, ?_, ?_, rfl⟩
  · show 0 ≤ min (netProfit * 0.9235) TAX_CONSTANTS_2025.socialSecurityWageBase
        * TAX_CONSTANTS_2025.socialSecurityRate
    refine mul_nonneg (le_min (mul_nonneg h (by norm_num)) ?_) ?_ <;>
      norm_num [TAX_CONSTANTS_2025.socialSecurityWageBase,
        TAX_CONSTANTS_2025.socialSecurityRate]
  · show 0 ≤ netProfit * 0.9235 * TAX_CONSTANTS_2025.medicareRate
    exact mul_nonneg (mul_nonneg h (by norm_num))
      (by norm_num [TAX_CONSTANTS_2025.medicareRate])
  · show 0 ≤ max 0 (netProfit * 0.9235
        - TAX_CONSTANTS_2025.additionalMedicareThreshold filingStatus)
        * TAX_CONSTANTS_2025.additionalMedicareRate
    exact mul_nonneg (le_max_left 0 _)
      (by norm_num [TAX_CONSTANTS_2025.additionalMedicareRate])

/-- Witness for claim C4 at net profit 1000, single filer. -/
theorem claim_C4_se_tax_witness :
    (calculateSelfEmploymentTax 1000 .single).totalSETax
        = (calculateSelfEmploymentTax 1000 .single).socialSecurityTax
          + (calculateSelfEmploymentTax 1000 .single).medicareTax
          + (calculateSelfEmploymentTax 1000 .single).additionalMedicareTax :=
  (claim_C4_se_tax .single 1000 (by norm_num)).2.2.2.1

/-- Claim C6: for every filing status and every net profit, however large,
the Social Security component of the SE tax never exceeds the cap
`wageBase × socialSecurityRate`. -/
theorem claim_C6_ss_cap (filingStatus : FilingStatus) (netProfit : ℚ) :
    (calculateSelfEmploymentTax netProfit filingStatus).socialSecurityTax
      ≤ TAX_CONSTANTS_2025.socialSecurityWageBase
        * TAX_CONSTANTS_2025.socialSecurityRate := by
  show min (netProfit * 0.9235) TAX_CONSTANTS_2025.socialSecurityWageBase
      * TAX_CONSTANTS_2025.socialSecurityRate ≤ _
  exact mul_le_mul_of_nonneg_right (min_le_right _ _)
    (by norm_num [TAX_CONSTANTS_2025.socialSecurityRate])

/-- Claim C9: `parseCurrency` is a total function; the cleaned string it
parses contains only digits, the decimal point and the minus sign, and the
result is the parsed number when parsing succeeds and 0 whenever the
cleaned string does not parse (NaN fallback). -/
theorem claim_C9_parse_currency (value : String) :
    (∀ c ∈ cleanCurrency value, c.isDigit ∨ c = '.' ∨ c = '-') ∧
    (parseFloatModel (cleanCurrency value) = none → parseCurrency value = 0) ∧
    (∀ q : ℚ, parseFloatModel (cleanCurrency value) = some q →
        parseCurrency value = q) := by
  refine ⟨?_, ?_, ?_⟩
  · intro c hc
    have hmem := (List.mem_filter.mp hc).2
    simpa [currencyChar, Bool.or_eq_true, decide_eq_true_eq, or_assoc] using hmem
  · intro h
    unfold parseCurrency
    rw [h]
  · intro q h
    unfold parseCurrency
    rw [h]

/-- Witness for claim C9: a currency string with noise characters parses to
its numeric value. -/
theorem claim_C9_parse_currency_witness : parseCurrency "$1,234.50" = 1234.5 := by
  refine (claim_C9_parse_currency "$1,234.50").2.2 1234.5 ?_
  have hclean : cleanCurrency "$1,234.50" = ['1','2','3','4','.','5','0'] := by decide
  have hhead : (['1','2','3','4','.','5','0'] : List Char).head? = some '-' ↔ False := by
    decide
  have htake : (['1','2','3','4','.','5','0'] : List Char).takeWhile Char.isDigit
      = ['1','2','3','4'] := by decide
  have hdrop : (['1','2','3','4','.','5','0'] : List Char).dropWhile Char.isDigit
      = ['.','5','0'] := by decide
  have htake2 : (['5','0'] : List Char).takeWhile Char.isDigit = ['5','0'] := by decide
  have hd1 : digitsVal ['1','2','3','4'] = 1234 := by decide
  have hd2 : digitsVal ['5','0'] = 50 := by decide
  unfold parseFloatModel
  rw [hclean]
  simp only [hhead, htake, hdrop, htake2, if_false, eq_self_iff_true]
  norm_num [hd1, hd2]

/-- A non-positive remaining income makes the walk return no tax and no
detail rows (the loop breaks immediately). -/
theorem bracketWalk_nonpos (bs : List TaxBracket) (t : ℚ) (ht : t ≤ 0) :
    bracketWalk bs t = (0, []) := by
  cases bs with
  | nil => rfl
  | cons b rest => simp [bracketWalk, ht]

/-- The amount taxed in one bracket never exceeds the remaining income. -/
theorem taxableAt_le (b : TaxBracket) (t : ℚ) : taxableAt b t ≤ t := by
  unfold taxableAt
  cases b.max with
  | none => exact le_rfl
  | some m => exact min_le_left _ _

/-- With positive remaining income and a positive-capacity bracket, the
amount taxed in the bracket is positive. -/
theorem taxableAt_pos (b : TaxBracket) (hb : sizePos b) {t : ℚ} (ht : 0 < t) :
    0 < taxableAt b t := by
  cases hmax : b.max with
  | none => simpa [taxableAt, hmax] using ht
  | some m =>
    have hb' : 0 < m - b.min + 1 := by simpa [sizePos, hmax] using hb
    simpa [taxableAt, hmax] using lt_min ht hb'

/-- The amount taxed in one bracket is monotone in the remaining income. -/
theorem taxableAt_mono (b : TaxBracket) {x y : ℚ} (hxy : x ≤ y) :
    taxableAt b x ≤ taxableAt b y := by
  cases hmax : b.max with
  | none => simpa [taxableAt, hmax] using hxy
  | some m => simpa [taxableAt, hmax] using min_le_min hxy le_rfl

/-- The income left over after one bracket is monotone in the remaining
income. -/
theorem sub_taxableAt_mono (b : TaxBracket) {x y : ℚ} (hxy : x ≤ y) :
    x - taxableAt b x ≤ y - taxableAt b y := by
  cases hmax : b.max with
  | none => simp [taxableAt, hmax]
  | some m =>
    simp only [taxableAt, hmax]
    rcases le_total x (m - b.min + 1) with h1 | h1
    · rw [min_eq_left h1, sub_self]
      exact sub_nonneg.mpr (min_le_left y _)
    · rw [min_eq_right h1, min_eq_right (h1.trans hxy)]
      exact sub_le_sub_right hxy _

/-- First-component unfolding of one loop iteration (the accumulated tax is
the same whether or not the detail row is pushed). -/
theorem bracketWalk_fst_cons (b : TaxBracket) (rest : List TaxBracket) {t : ℚ}
    (ht : 0 < t) :
    (bracketWalk (b :: rest) t).1
      = taxableAt b t * b.rate + (bracketWalk rest (t - taxableAt b t)).1 := by
  simp only [bracketWalk]
  rw [if_neg (not_le.mpr ht)]
  split_ifs <;> rfl

/-- Second-component unfolding of one loop iteration when the detail row is
pushed. -/
theorem bracketWalk_snd_cons (b : TaxBracket) (rest : List TaxBracket) {t : ℚ}
    (ht : 0 < t) (hA : 0 < taxableAt b t) :
    (bracketWalk (b :: rest) t).2
      = ⟨b.rate, taxableAt b t, taxableAt b t * b.rate⟩
          :: (bracketWalk rest (t - taxableAt b t)).2 := by
  simp only [bracketWalk]
  rw [if_neg (not_le.mpr ht), if_pos hA]

/-- Second-component unfolding of one loop iteration when the detail row is
not pushed. -/
theorem bracketWalk_snd_cons_neg (b : TaxBracket) (rest : List TaxBracket) {t : ℚ}
    (ht : 0 < t) (hA : ¬ 0 < taxableAt b t) :
    (bracketWalk (b :: rest) t).2 = (bracketWalk rest (t - taxableAt b t)).2 := by
  simp only [bracketWalk]
  rw [if_neg (not_le.mpr ht), if_neg hA]

/-- Over brackets with non-negative rates and positive capacities, the walk
accumulates a non-negative tax. -/
theorem bracketWalk_fst_nonneg :
    ∀ (bs : List TaxBracket), (∀ b ∈ bs, 0 ≤ b.rate ∧ sizePos b) →
      ∀ t : ℚ, 0 ≤ t → 0 ≤ (bracketWalk bs t).1
  | [], _, t, _ => by simp [bracketWalk]
  | b :: rest, h, t, ht => by
    rcases eq_or_lt_of_le ht with heq | hpos
    · rw [bracketWalk_nonpos _ t heq.ge]
    · rw [bracketWalk_fst_cons b rest hpos]
      have hA := taxableAt_pos b (h b (List.mem_cons_self b rest)).2 hpos
      refine add_nonneg (mul_nonneg hA.le (h b (List.mem_cons_self b rest)).1) ?_
      exact bracketWalk_fst_nonneg rest
        (fun b' hb' => h b' (List.mem_cons_of_mem b hb'))
        (t - taxableAt b t) (sub_nonneg.mpr (taxableAt_le b t))

/-- Over brackets with non-negative rates and positive capacities, the walk
total is monotone in the income fed to it. -/
theorem bracketWalk_fst_mono :
    ∀ (bs : List TaxBracket), (∀ b ∈ bs, 0 ≤ b.rate ∧ sizePos b) →
      ∀ x y : ℚ, 0 ≤ x → x ≤ y → (bracketWalk bs x).1 ≤ (bracketWalk bs y).1
  | [], _, x, y, _, _ => le_rfl
  | br :: rest, h, x, y, hx, hxy => by
    rcases eq_or_lt_of_le hx with heq | hpos
    · rw [bracketWalk_nonpos _ x heq.ge]
      exact bracketWalk_fst_nonneg (br :: rest) h y (hx.trans hxy)
    · have hypos : 0 < y := lt_of_lt_of_le hpos hxy
      rw [bracketWalk_fst_cons br rest hpos, bracketWalk_fst_cons br rest hypos]
      have h1 : taxableAt br x ≤ taxableAt br y := taxableAt_mono br hxy
      have h2 : x - taxableAt br x ≤ y - taxableAt br y := sub_taxableAt_mono br hxy
      have h3 : 0 ≤ x - taxableAt br x := sub_nonneg.mpr (taxableAt_le br x)
      refine add_le_add
        (mul_le_mul_of_nonneg_right h1 (h br (List.mem_cons_self br rest)).1) ?_
      exact bracketWalk_fst_mono rest
        (fun b' hb' => h b' (List.mem_cons_of_mem br hb')) _ _ h3 h2

/-- Every detail row the walk pushes has a positive taxed amount (the push
is guarded by `taxableAtRate > 0`). -/
theorem bracketWalk_details_pos :
    ∀ (bs : List TaxBracket) (t : ℚ), ∀ d ∈ (bracketWalk bs t).2, 0 < d.taxableAtRate
  | [], t, d, hd => absurd hd (by simp [bracketWalk])
  | br :: rest, t, d, hd => by
    by_cases ht : t ≤ 0
    · rw [bracketWalk_nonpos _ _ ht] at hd
      cases hd
    · push_neg at ht
      by_cases hA : 0 < taxableAt br t
      · rw [bracketWalk_snd_cons br rest ht hA] at hd
        rcases List.mem_cons.mp hd with rfl | hmem
        · exact hA
        · exact bracketWalk_details_pos rest _ d hmem
      · rw [bracketWalk_snd_cons_neg br rest ht hA] at hd
        exact bracketWalk_details_pos rest _ d hd

/-- Every detail row the walk pushes satisfies
`taxAtRate = taxableAtRate × rate`. -/
theorem bracketWalk_detail_mul :
    ∀ (bs : List TaxBracket) (t : ℚ), ∀ d ∈ (bracketWalk bs t).2,
      d.taxAtRate = d.taxableAtRate * d.rate
  | [], t, d, hd => absurd hd (by simp [bracketWalk])
  | br :: rest, t, d, hd => by
    by_cases ht : t ≤ 0
    · rw [bracketWalk_nonpos _ _ ht] at hd
      cases hd
    · push_neg at ht
      by_cases hA : 0 < taxableAt br t
      · rw [bracketWalk_snd_cons br rest ht hA] at hd
        rcases List.mem_cons.mp hd with rfl | hmem
        · rfl
        · exact bracketWalk_detail_mul rest _ d hmem
      · rw [bracketWalk_snd_cons_neg br rest ht hA] at hd
        exact bracketWalk_detail_mul rest _ d hd

/-- The rates of the pushed detail rows form a sublist of the table's rates
(at most one row per bracket, in table order). -/
theorem bracketWalk_rates_sublist :
    ∀ (bs : List TaxBracket) (t : ℚ),
      ((bracketWalk bs t).2.map BracketDetail.rate).Sublist
        (bs.map TaxBracket.rate)
  | [], t => by simp [bracketWalk]
  | br :: rest, t => by
    by_cases ht : t ≤ 0
    · rw [bracketWalk_nonpos _ _ ht]
      simp
    · push_neg at ht
      by_cases hA : 0 < taxableAt br t
      · rw [bracketWalk_snd_cons br rest ht hA]
        simpa using (bracketWalk_rates_sublist rest (t - taxableAt br t)).cons₂ br.rate
      · rw [bracketWalk_snd_cons_neg br rest ht hA]
        exact (bracketWalk_rates_sublist rest (t - taxableAt br t)).cons br.rate

/-- Over a table with positive capacities ending in an unbounded bracket,
the walk accounts for the entire income: the pushed taxed amounts sum to
exactly the income fed in. -/
theorem bracketWalk_sum_taxable :
    ∀ (bs : List TaxBracket), (∀ b ∈ bs, sizePos b) →
      (∃ b ∈ bs, b.max = none) → ∀ t : ℚ, 0 ≤ t →
        ((bracketWalk bs t).2.map BracketDetail.taxableAtRate).sum = t
  | [], _, hub, _, _ => absurd hub (by simp)
  | br :: rest, hsz, hub, t, ht => by
    rcases eq_or_lt_of_le ht with heq | hpos
    · rw [bracketWalk_nonpos _ t heq.ge]
      simpa using heq
    · have hA : 0 < taxableAt br t :=
        taxableAt_pos br (hsz br (List.mem_cons_self br rest)) hpos
      rw [bracketWalk_snd_cons br rest hpos hA, List.map_cons, List.sum_cons]
      cases hmax : br.max with
      | none =>
        have hAt : taxableAt br t = t := by simp [taxableAt, hmax]
        rw [hAt, sub_self, bracketWalk_nonpos rest 0 le_rfl]
        simp
      | some m =>
        have hub' : ∃ b ∈ rest, b.max = none := by
          rcases hub with ⟨b', hb', hnone⟩
          rcases List.mem_cons.mp hb' with rfl | hmem
          · rw [hmax] at hnone
            cases hnone
          · exact ⟨b', hmem, hnone⟩
        have hrec := bracketWalk_sum_taxable rest
          (fun b' hb' => hsz b' (List.mem_cons_of_mem br hb')) hub'
          (t - taxableAt br t) (sub_nonneg.mpr (taxableAt_le br t))
        rw [hrec]
        ring

/-- Over a table with positive capacities, the accumulated total equals the
sum of the pushed per-bracket taxes (no tax is accumulated outside a pushed
row). -/
theorem bracketWalk_fst_eq_sum_tax :
    ∀ (bs : List TaxBracket), (∀ b ∈ bs, sizePos b) → ∀ t : ℚ,
      (bracketWalk bs t).1 = ((bracketWalk bs t).2.map BracketDetail.taxAtRate).sum
  | [], _, t => by simp [bracketWalk]
  | br :: rest, hsz, t => by
    by_cases ht : t ≤ 0
    · rw [bracketWalk_nonpos _ _ ht]
      simp
    · push_neg at ht
      have hA : 0 < taxableAt br t :=
        taxableAt_pos br (hsz br (List.mem_cons_self br rest)) ht
      rw [bracketWalk_fst_cons br rest ht, bracketWalk_snd_cons br rest ht hA,
        List.map_cons, List.sum_cons,
        bracketWalk_fst_eq_sum_tax rest
          (fun b' hb' => hsz b' (List.mem_cons_of_mem br hb')) _]

/-- Both 2025 bracket tables have non-negative rates and positive bracket
capacities. -/
theorem tables_rate_nonneg_sizePos (fs : FilingStatus) :
    ∀ b ∈ TAX_BRACKETS_2025 fs, 0 ≤ b.rate ∧ sizePos b := by
  cases fs <;> intro b hb <;>
    simp only [TAX_BRACKETS_2025, List.mem_cons, List.not_mem_nil, or_false] at hb <;>
    rcases hb with rfl | rfl | rfl | rfl | rfl | rfl | rfl <;>
    exact ⟨by norm_num, by norm_num [sizePos]⟩

/-- Both 2025 bracket tables end in an unbounded bracket. -/
theorem tables_unbounded (fs : FilingStatus) :
    ∃ b ∈ TAX_BRACKETS_2025 fs, b.max = none := by
  cases fs with
  | single => exact ⟨⟨626351, none, 0.37⟩, by simp [TAX_BRACKETS_2025], rfl⟩
  | married => exact ⟨⟨751601, none, 0.37⟩, by simp [TAX_BRACKETS_2025], rfl⟩

/-- Both 2025 bracket tables have strictly increasing rates. -/
theorem tables_rates_chain (fs : FilingStatus) :
    List.Chain' (· < ·) ((TAX_BRACKETS_2025 fs).map TaxBracket.rate) := by
  cases fs <;>
    norm_num [TAX_BRACKETS_2025, List.chain'_cons, List.chain'_singleton]

/-- Claim C5: for every input reaching `calculateIncomeTax`, the returned
bracket details partition the taxable income exactly (the taxed amounts sum
to `taxableIncome`), every returned row has a strictly positive taxed
amount, and the rows appear in strictly ascending rate order. -/
theorem claim_C5_bracket_partition (netProfit seTaxDeduction : ℚ)
    (fs : FilingStatus) :
    ((calculateIncomeTax netProfit seTaxDeduction fs).bracketDetails.map
        BracketDetail.taxableAtRate).sum
      = (calculateIncomeTax netProfit seTaxDeduction fs).taxableIncome ∧
    (∀ d ∈ (calculateIncomeTax netProfit seTaxDeduction fs).bracketDetails,
        0 < d.taxableAtRate) ∧
    List.Chain' (· < ·)
      ((calculateIncomeTax netProfit seTaxDeduction fs).bracketDetails.map
        BracketDetail.rate) := by
  refine ⟨?_, ?_, ?_⟩
  · exact bracketWalk_sum_taxable (TAX_BRACKETS_2025 fs)
      (fun b hb => (tables_rate_nonneg_sizePos fs b hb).2) (tables_unbounded fs)
      _ (le_max_left _ _)
  · exact fun d hd => bracketWalk_details_pos _ _ d hd
  · exact (tables_rates_chain fs).sublist (bracketWalk_rates_sublist _ _)

/-- Witness for claim C5: at net profit 15751 (taxable income 1) the single
returned row has positive taxed amount. -/
theorem claim_C5_bracket_partition_witness :
    0 < (⟨0.10, 1, 0.10⟩ : BracketDetail).taxableAtRate := by
  refine (claim_C5_bracket_partition 15751 0 .single).2.1 ⟨0.10, 1, 0.10⟩ ?_
  norm_num [calculateIncomeTax, TAX_CONSTANTS_2025.standardDeduction,
    TAX_BRACKETS_2025, bracketWalk, taxableAt, min_def, max_def]

/-- Claim C7: for a fixed filing status the bracket walk is monotonically
non-decreasing in the taxable income fed to it, and the federal income tax
of `calculateIncomeTax` is exactly the walk applied to its taxable income. -/
theorem claim_C7_income_tax_monotone (fs : FilingStatus) (a b : ℚ)
    (ha : 0 ≤ a) (hab : a ≤ b) :
    (bracketWalk (TAX_BRACKETS_2025 fs) a).1
      ≤ (bracketWalk (TAX_BRACKETS_2025 fs) b).1 ∧
    (∀ netProfit seTaxDeduction : ℚ,
        (calculateIncomeTax netProfit seTaxDeduction fs).federalIncomeTax
          = (bracketWalk (TAX_BRACKETS_2025 fs)
              ((calculateIncomeTax netProfit seTaxDeduction fs).taxableIncome)).1) :=
  ⟨bracketWalk_fst_mono _ (tables_rate_nonneg_sizePos fs) a b ha hab,
   fun _ _ => rfl⟩

/-- Witness for claim C7 at taxable incomes 1 ≤ 2, single filer. -/
theorem claim_C7_income_tax_monotone_witness :
    (bracketWalk (TAX_BRACKETS_2025 .single) 1).1
      ≤ (bracketWalk (TAX_BRACKETS_2025 .single) 2).1 :=
  (claim_C7_income_tax_monotone .single 1 2 (by norm_num) (by norm_num)).1

/-- Claim C10: every `IncomeTaxBreakdown` is internally consistent: the
federal income tax equals the sum of `taxAtRate` over the bracket details,
and each detail row satisfies `taxAtRate = taxableAtRate × rate`. -/
theorem claim_C10_breakdown_consistent (netProfit seTaxDeduction : ℚ)
    (fs : FilingStatus) :
    (calculateIncomeTax netProfit seTaxDeduction fs).federalIncomeTax
      = ((calculateIncomeTax netProfit seTaxDeduction fs).bracketDetails.map
          BracketDetail.taxAtRate).sum ∧
    ∀ d ∈ (calculateIncomeTax netProfit seTaxDeduction fs).bracketDetails,
        d.taxAtRate = d.taxableAtRate * d.rate :=
  ⟨bracketWalk_fst_eq_sum_tax _
      (fun b hb => (tables_rate_nonneg_sizePos fs b hb).2) _,
   fun d hd => bracketWalk_detail_mul _ _ d hd⟩

/-- Witness for claim C10 at net profit 15752 (taxable income 2). -/
theorem claim_C10_breakdown_consistent_witness :
    (⟨0.10, 2, 0.20⟩ : BracketDetail).taxAtRate
      = (⟨0.10, 2, 0.20⟩ : BracketDetail).taxableAtRate
        * (⟨0.10, 2, 0.20⟩ : BracketDetail).rate := by
  refine (claim_C10_breakdown_consistent 15752 0 .single).2 ⟨0.10, 2, 0.20⟩ ?_
  norm_num [calculateIncomeTax, TAX_CONSTANTS_2025.standardDeduction,
    TAX_BRACKETS_2025, bracketWalk, taxableAt, min_def, max_def]

/-- Claim C8: at the zero boundary, a taxable income of exactly 0 yields an
empty bracket-detail list and zero federal income tax; and a current-year
profit of 0 yields zero SE tax components, zero deduction, and taxable
income `max(0, 0 − standardDeduction) = 0`. -/
theorem claim_C8_zero_boundary :
    (∀ (netProfit seTaxDeduction : ℚ) (fs : FilingStatus),
        (calculateIncomeTax netProfit seTaxDeduction fs).taxableIncome = 0 →
          (calculateIncomeTax netProfit seTaxDeduction fs).federalIncomeTax = 0 ∧
          (calculateIncomeTax netProfit seTaxDeduction fs).bracketDetails = []) ∧
    (∀ (fs : FilingStatus) (priorYearTax priorYearAGI : ℚ),
        (calculateTaxes
            ⟨fs, priorYearTax, priorYearAGI, 0⟩).selfEmploymentTax.socialSecurityTax
          = 0 ∧
        (calculateTaxes
            ⟨fs, priorYearTax, priorYearAGI, 0⟩).selfEmploymentTax.medicareTax = 0 ∧
        (calculateTaxes
            ⟨fs, priorYearTax, priorYearAGI, 0⟩).selfEmploymentTax.additionalMedicareTax
          = 0 ∧
        (calculateTaxes
            ⟨fs, priorYearTax, priorYearAGI, 0⟩).selfEmploymentTax.totalSETax = 0 ∧
        (calculateTaxes
            ⟨fs, priorYearTax, priorYearAGI, 0⟩).selfEmploymentTax.seTaxDeduction = 0 ∧
        (calculateTaxes ⟨fs, priorYearTax, priorYearAGI, 0⟩).incomeTax.taxableIncome
          = 0) := by
  constructor
  · intro netProfit seTaxDeduction fs h
    have h' : max 0 (netProfit - seTaxDeduction
        - TAX_CONSTANTS_2025.standardDeduction fs) = 0 := h
    constructor
    · show (bracketWalk (TAX_BRACKETS_2025 fs) (max 0 (netProfit - seTaxDeduction
          - TAX_CONSTANTS_2025.standardDeduction fs))).1 = 0
      rw [h', bracketWalk_nonpos _ 0 le_rfl]
    · show (bracketWalk (TAX_BRACKETS_2025 fs) (max 0 (netProfit - seTaxDeduction
          - TAX_CONSTANTS_2025.standardDeduction fs))).2 = []
      rw [h', bracketWalk_nonpos _ 0 le_rfl]
  · intro fs priorYearTax priorYearAGI
    cases fs <;>
      norm_num [calculateTaxes, calculateSelfEmploymentTax, calculateIncomeTax,
        TAX_CONSTANTS_2025.standardDeduction, TAX_CONSTANTS_2025.socialSecurityWageBase,
        TAX_CONSTANTS_2025.socialSecurityRate, TAX_CONSTANTS_2025.medicareRate,
        TAX_CONSTANTS_2025.additionalMedicareRate,
        TAX_CONSTANTS_2025.additionalMedicareThreshold,
        TAX_CONSTANTS_2025.seTaxDeductionRate, min_def, max_def]

/-- Witness for claim C8: zero net profit and zero deduction give taxable
income 0, hence zero tax and no bracket rows. -/
theorem claim_C8_zero_boundary_witness :
    (calculateIncomeTax 0 0 .single).federalIncomeTax = 0 ∧
    (calculateIncomeTax 0 0 .single).bracketDetails = [] :=
  claim_C8_zero_boundary.1 0 0 .single
    (by norm_num [calculateIncomeTax, TAX_CONSTANTS_2025.standardDeduction, max_def])

/-- Claim C3: the end-to-end scenario single filer, prior-year tax 25000,
prior-year AGI 140000, current-year profit 200000: Social Security tax
21836.4 (capped at the wage base), Medicare tax 5356.3, no additional
Medicare tax, total SE tax 27192.7, Safe Harbor multiplier 1.0 and minimum
25000, Safe Harbor recommended (`isCurrentYearLower = false`), required
annual payment 25000 and quarterly payment 6250. -/
theorem claim_C3_scenario_a :
    (calculateTaxes ⟨.single, 25000, 140000, 200000⟩).selfEmploymentTax.socialSecurityTax
      = 21836.4 ∧
    (calculateTaxes ⟨.single, 25000, 140000, 200000⟩).selfEmploymentTax.medicareTax
      = 5356.3 ∧
    (calculateTaxes
        ⟨.single, 25000, 140000, 200000⟩).selfEmploymentTax.additionalMedicareTax
      = 0 ∧
    (calculateTaxes ⟨.single, 25000, 140000, 200000⟩).selfEmploymentTax.totalSETax
      = 27192.7 ∧
    (calculateTaxes ⟨.single, 25000, 140000, 200000⟩).safeHarborMultiplier = 1.0 ∧
    (calculateTaxes ⟨.single, 25000, 140000, 200000⟩).safeHarborMinimum = 25000 ∧
    (calculateTaxes ⟨.single, 25000, 140000, 200000⟩).isCurrentYearLower = false ∧
    (calculateTaxes ⟨.single, 25000, 140000, 200000⟩).requiredAnnualPayment = 25000 ∧
    (calculateTaxes ⟨.single, 25000, 140000, 200000⟩).quarterlyPayment = 6250 := by
  norm_num [calculateTaxes, calculateSelfEmploymentTax, calculateIncomeTax,
    calculateSafeHarbor, bracketWalk, taxableAt, TAX_BRACKETS_2025,
    TAX_CONSTANTS_2025.standardDeduction, TAX_CONSTANTS_2025.socialSecurityWageBase,
    TAX_CONSTANTS_2025.socialSecurityRate, TAX_CONSTANTS_2025.medicareRate,
    TAX_CONSTANTS_2025.additionalMedicareRate,
    TAX_CONSTANTS_2025.additionalMedicareThreshold,
    TAX_CONSTANTS_2025.seTaxDeductionRate,
    TAX_CONSTANTS_2025.safeHarborHighIncomeThreshold,
    TAX_CONSTANTS_2025.safeHarborHighIncomeMultiplier,
    TAX_CONSTANTS_2025.safeHarborStandardMultiplier,
    TAX_CONSTANTS_2025.currentYearAvoidanceMultiplier,
    min_def, max_def, decide_eq_false_iff_not, decide_eq_true_eq]
